import Mathlib

/-!
Shallow embedding of the clearag-api HTTP client facade.

The repository contains two otherwise-identical client classes:
* `ClearAg` (src/lib/clearag.js) — the "strict" variant: `_http` classifies a
  completed response by HTTP status in [200, 300) and raises otherwise;
* `ClearAgApi` (the unnamed companion file) — the "tolerant" variant:
  `_request` relies on the transport's own success/exception split, downgrades
  a 404-carrying exception to a null result, logs via `_writeLog`, and
  re-raises everything else.

JavaScript strings are modelled as `String`, JavaScript numbers occurring in
the modelled code paths as `Int` (the endpoints only pass integer timestamps;
latitude/longitude enter the code only through template-literal rendering and
are therefore modelled by their decimal string rendering), `null`/`undefined`
as dedicated constructors, objects with a fixed key set as structures with
`Option` fields (`none` = the property is absent/undefined), and the
query-parameter object as a unique-key association list. Fallible JavaScript
(property access on `undefined`, calling a missing method) is modelled with
`Except String`, the error string naming the TypeError.
-/

/-- A JavaScript primitive value as it occurs in the query-parameter mapping:
a string, an (integer) number, `null`, or `undefined`. -/
inductive JsVal where
  | str : String → JsVal
  | int : Int → JsVal
  | null : JsVal
  | undefined : JsVal
  deriving DecidableEq, Repr

/-- JavaScript truthiness of a string: every string except the empty one. -/
def jsTruthyStr (s : String) : Bool := s != ""

/-- JavaScript truthiness of an optional string (`none` = `undefined`, falsy). -/
def jsTruthyOpt : Option String → Bool
  | some s => jsTruthyStr s
  | none => false

/-- The outbound query-parameter mapping (string key → value, keys unique). -/
abbrev ParamsMap := List (String × JsVal)

/-- JavaScript property assignment `obj[k] = v` on a unique-key object:
overwrite the binding if the key is present, append it otherwise. -/
def setKey : ParamsMap → String → JsVal → ParamsMap
  | [], k, v => [(k, v)]
  | (a :: t), k, v => if a.1 == k then (k, v) :: t else a :: setKey t k v

/-- JavaScript property read `obj[k]` on a unique-key object. -/
def getKey : ParamsMap → String → Option JsVal
  | [], _ => none
  | (a :: t), k => if a.1 == k then some a.2 else getKey t k

/-- Embeds `(this.appId ? this.appId : (config.appId ? config.appId : null))` —
the credential resolution expression shared verbatim by `_http` (clearag.js
line 29-30) and `_request` (companion file line 56-57). -/
def resolveCred (instVal : String) (override : Option String) : JsVal :=
  if jsTruthyStr instVal then .str instVal
  else match override with
    | some s => if jsTruthyStr s then .str s else .null
    | none => .null

/-- The axios request configuration object assembled by the client. `none`
fields are absent/undefined properties. `data` is the request body (never set
by the modelled GET helpers, hence defaulted to `undefined`). -/
structure AxiosConfig where
  method : Option String := none
  url : Option String := none
  params : Option ParamsMap := none
  appId : Option String := none
  appKey : Option String := none
  responseType : Option String := none
  timeout : Option Int := none
  data : JsVal := .undefined
  deriving DecidableEq, Repr

/-- Force-set the two reserved credential keys on the parameter mapping. -/
def injectParams (appId appKey : String) (ovId ovKey : Option String)
    (ps : ParamsMap) : ParamsMap :=
  setKey (setKey ps "app_id" (resolveCred appId ovId)) "app_key"
    (resolveCred appKey ovKey)

/-- The credential-injection step (`config.params.app_id = ...;
config.params.app_key = ...`): a TypeError when `config.params` is absent,
since JavaScript cannot set a property of `undefined`. -/
def injectIntoConfig (appId appKey : String) (cfg : AxiosConfig) :
    Except String AxiosConfig :=
  match cfg.params with
  | none => .error "TypeError: cannot set properties of undefined"
  | some ps =>
      .ok { cfg with
              params := some (injectParams appId appKey cfg.appId cfg.appKey ps) }

/-- Embeds `endpoint.substring(0, 1) !== the separator` — the first-character test of
`_buildApiUrl` (for a nonempty string, `substring(0, 1)` is exactly the
one-character string of its head; for the empty string it is empty and the
test reports no leading separator). -/
def startsWithSlash (s : String) : Bool := s.data.head? == some '/'

/-- Embeds `_buildApiUrl` (clearag.js lines 14-19, companion file lines 18-21):
prepend the separator when the endpoint lacks one, then concatenate after
the host. -/
def buildApiUrl (host endpoint : String) : String :=
  if startsWithSlash endpoint then host ++ endpoint
  else host ++ ("/" ++ endpoint)

/-- Helper: `String.append` is associative (via the underlying char lists). -/
theorem string_append_assoc (a b c : String) : a ++ (b ++ c) = (a ++ b) ++ c := by
  apply String.ext
  simp [String.data_append, List.append_assoc]

/-- Helper: after setting key `k`, reading `k` yields the new value. -/
theorem getKey_setKey_same (ps : ParamsMap) (k : String) (v : JsVal) :
    getKey (setKey ps k v) k = some v := by
  induction ps with
  | nil => simp [setKey, getKey]
  | cons a t ih =>
      by_cases h : a.1 == k
      · simp [setKey, getKey, h]
      · simp only [setKey, h, Bool.false_eq_true, if_false, getKey]
        simp only [h, Bool.false_eq_true, if_false, ih]

/-- Helper: setting key `k` leaves a different key `j` unchanged. -/
theorem getKey_setKey_other (ps : ParamsMap) (k j : String) (v : JsVal)
    (h : (j == k) = false) : getKey (setKey ps k v) j = getKey ps j := by
  have hjk : j ≠ k := by simpa using h
  have hkj : (k == j) = false := by simpa using (Ne.symm hjk)
  induction ps with
  | nil => simp [setKey, getKey, hkj]
  | cons a t ih =>
      by_cases hak : a.1 == k
      · have ha : a.1 = k := by simpa using hak
        simp [setKey, getKey, hak, ha, hkj]
      · simp [setKey, getKey, hak, ih]

/-- The strict-variant client state (`ClearAg`, clearag.js), after its
constructor has resolved the option aliases. -/
structure StrictClient where
  appId : String
  appKey : String
  host : String
  deriving DecidableEq, Repr

/-- The logger-detail selector (`options.loggerConfig`): which of
url / params / request body / response body to include in a log line. -/
structure LoggerConfig where
  url : Bool
  params : Bool
  data : Bool
  response : Bool
  deriving DecidableEq, Repr

/-- The tolerant-variant client state (`ClearAgApi`, companion file), after
its constructor has run. `logger = true` means a log sink was supplied;
`loggerConfig = none` means `options.loggerConfig` was absent (the
constructor applies no default to it). -/
structure ApiClient where
  name : String := "clearag-api"
  appId : String
  appKey : String
  host : String := "https://ag.us.clearapis.com"
  logger : Bool
  loggerConfig : Option LoggerConfig
  logLevel : String := "verbose"
  responseType : String := "json"
  timeout : Int := 180000
  deriving DecidableEq, Repr

/-- A transport-level response object: status, status text, data payload,
and — when the transport provides it — a request object carrying the final
resolved path (`request = none` means `response.request` is absent;
`request = some none` means the request object exists but has no path). -/
structure TransportResponse where
  status : Int
  statusText : String
  data : JsVal
  request : Option (Option String)
  deriving DecidableEq, Repr

/-- A transport-level exception, optionally carrying an attached response. -/
structure TransportErr where
  response : Option TransportResponse
  deriving DecidableEq, Repr

/-- The opaque transport collaborator's outcome for one dispatched request. -/
inductive TransportOutcome where
  | success : TransportResponse → TransportOutcome
  | failure : TransportErr → TransportOutcome
  deriving DecidableEq, Repr

/-- What `_request` can raise: the re-raised transport exception, or a
TypeError fault of the client's own code (e.g. from the logging step). -/
inductive ReqError where
  | transport : TransportErr → ReqError
  | fault : String → ReqError
  deriving DecidableEq, Repr

/-- One emission on the log sink: a severity level and a message line. -/
structure LogLine where
  level : String
  message : String
  deriving DecidableEq, Repr

/-- Embeds `JSON.stringify` restricted to the modelled primitives: `undefined`
serializes to `undefined` (modelled `none`), which is falsy. -/
def jsonStringify : JsVal → Option String
  | .str s => some ("\"" ++ s ++ "\"")
  | .int n => some (toString n)
  | .null => some "null"
  | .undefined => none

/-- Embeds `_.compact(parts).join(sep)` with a single-space separator: drop the
falsy segments (`null`/`undefined`/empty string) and join the rest. -/
def compactJoin (parts : List (Option String)) : String :=
  String.intercalate " " (parts.filterMap (fun p =>
    match p with
    | some s => if s == "" then none else some s
    | none => none))

/-- Embeds `_writeLog` (companion file lines 93-104). Faults (TypeError) when the
sink is configured but `loggerConfig` is absent, when the `url` detail flag
is enabled (`this._buildScheme` does not exist on the class), or when the
`params` detail flag is enabled and the response carries no request object. -/
def writeLog (cl : ApiClient) (endpoint : String) (cfg : AxiosConfig)
    (resp : TransportResponse) (lvl : String) : Except String (List LogLine) :=
  if cl.logger then
    match cl.loggerConfig with
    | none => .error "TypeError: cannot read properties of undefined reading url"
    | some lc =>
        if lc.url then .error "TypeError: this.buildScheme is not a function"
        else if lc.params && resp.request.isNone then
          .error "TypeError: cannot read properties of undefined reading path"
        else
          let pathSeg : Option String :=
            if lc.params then resp.request.getD none else some endpoint
          let dataSeg : Option String :=
            if lc.data then jsonStringify cfg.data else none
          let statusSeg : Option String :=
            some (toString resp.status ++ " " ++ resp.statusText)
          let respSeg : Option String :=
            if lc.response then jsonStringify resp.data else none
          .ok [⟨lvl, compactJoin [some ("[" ++ cl.name ++ "]"), cfg.method,
            none, pathSeg, dataSeg, statusSeg, respSeg]⟩]
  else .ok []

/-- The config-assembly prefix of `_request` (companion file lines 53-58):
set the url and response type, inject the credentials (faulting when
`config.params` is absent), and set the timeout when truthy. -/
def assembleRequest (cl : ApiClient) (endpoint : String) (cfg0 : AxiosConfig) :
    Except String AxiosConfig :=
  let cfg1 := { cfg0 with
                  url := some (buildApiUrl cl.host endpoint),
                  responseType := some cl.responseType }
  match injectIntoConfig cl.appId cl.appKey cfg1 with
  | .error f => .error f
  | .ok cfg2 =>
      .ok (if cl.timeout != 0 then { cfg2 with timeout := some cl.timeout }
           else cfg2)

/-- Embeds `_request` (companion file lines 52-72) with the transport outcome as an
explicit input: assemble the config, dispatch, write a log on success or on a
response-carrying exception, downgrade a 404-carrying exception to `null`,
re-raise everything else. Returns the result together with the list of log
emissions of the call. -/
def requestCore (cl : ApiClient) (endpoint : String) (cfg0 : AxiosConfig)
    (outcome : TransportOutcome) : Except ReqError JsVal × List LogLine :=
  match assembleRequest cl endpoint cfg0 with
  | .error f => (.error (.fault f), [])
  | .ok cfg =>
      match outcome with
      | .success resp =>
          match writeLog cl endpoint cfg resp cl.logLevel with
          | .error f => (.error (.fault f), [])
          | .ok logs => (.ok resp.data, logs)
      | .failure e =>
          match e.response with
          | none => (.error (.transport e), [])
          | some resp =>
              match writeLog cl endpoint cfg resp "error" with
              | .error f => (.error (.fault f), [])
              | .ok logs =>
                  if resp.status == 404 then (.ok .null, logs)
                  else (.error (.transport e), logs)

/-- The config built by the tolerant variant's `_get` (companion file lines
83-91): method GET, params defaulted to the empty mapping, per-call
credential overrides threaded through. -/
def getCfg (params : Option ParamsMap) (appId appKey : Option String) :
    AxiosConfig :=
  { method := some "GET", params := some (params.getD []),
    appId := appId, appKey := appKey }

/-- Embeds `_get` composed with `_request`. -/
def getRun (cl : ApiClient) (endpoint : String) (params : Option ParamsMap)
    (appId appKey : Option String) (outcome : TransportOutcome) :
    Except ReqError JsVal × List LogLine :=
  requestCore cl endpoint (getCfg params appId appKey) outcome

/-- Embeds `_isResponseSuccessful` (clearag.js lines 63-65). -/
def isResponseSuccessful (resp : TransportResponse) : Bool :=
  decide (200 ≤ resp.status) && decide (resp.status < 300)

/-- The error thrown by the strict `_http`: message, `err.code` (the numeric
status) and `err.meta` (the response payload). -/
structure HttpErr where
  message : String
  code : Int
  meta : JsVal
  deriving DecidableEq, Repr

/-- Outcome of the strict `_http` on a completed transport response. -/
inductive StrictResult where
  | payload : JsVal → StrictResult
  | raised : HttpErr → StrictResult
  | fault : String → StrictResult
  deriving DecidableEq, Repr

/-- Template-literal rendering of an optional string property (an absent
property renders as the text undefined). -/
def jsRenderOptStr : Option String → String
  | some s => s
  | none => "undefined"

/-- Embeds `_http` (clearag.js lines 27-41) on a completed transport response:
inject the credentials (faulting when `config.params` is absent), then
return the payload on a [200, 300) status and throw the status-carrying
error otherwise. -/
def httpRun (cl : StrictClient) (cfg : AxiosConfig) (resp : TransportResponse) :
    StrictResult :=
  match injectIntoConfig cl.appId cl.appKey cfg with
  | .error f => .fault f
  | .ok cfg2 =>
      if isResponseSuccessful resp then .payload resp.data
      else .raised ⟨toString resp.status ++ " - " ++ jsRenderOptStr cfg2.url
        ++ " failed", resp.status, resp.data⟩

/-- The config built by the strict variant's `_httpGet` (clearag.js lines
52-61): method get, url prebuilt, params defaulted to the empty mapping. -/
def httpGetCfg (cl : StrictClient) (endpoint : String)
    (params : Option ParamsMap) (appId appKey : Option String) : AxiosConfig :=
  { method := some "get", url := some (buildApiUrl cl.host endpoint),
    params := some (params.getD []), appId := appId, appKey := appKey }

/-- Embeds `location ? location : latitude-comma-longitude` (clearag.js line 83,
companion file line 39): a truthy location string is used verbatim,
otherwise the coordinates are combined. -/
def locationValue (latStr lonStr : String) (location : Option String) : String :=
  match location with
  | some s => if jsTruthyStr s then s else latStr ++ ", " ++ lonStr
  | none => latStr ++ ", " ++ lonStr

/-- An optional string argument as the JavaScript value placed in the bag. -/
def jsOfOptStr : Option String → JsVal
  | some s => .str s
  | none => .undefined

/-- The fixed path of the daily historical air temperature operation. -/
def dailyAirTempEndpoint : String := "/v1.2/historical/daily/air_temp"

/-- The parameter bag built by `dailyHistoricalAirTemperature` (clearag.js
lines 78-87, companion file lines 34-43). -/
def dailyAirTempParams (start endTime : Int) (latStr lonStr : String)
    (location unitcode : Option String) : ParamsMap :=
  [("start", .int start), ("end", .int endTime),
   ("location", .str (locationValue latStr lonStr location)),
   ("unitcode", jsOfOptStr unitcode)]

/-- Embeds `dailyHistoricalAirTemperature` (tolerant variant) end to end: build the
bag and delegate to `_get`. -/
def dailyHistoricalAirTemperature (cl : ApiClient) (start endTime : Int)
    (latStr lonStr : String) (location unitcode : Option String)
    (outcome : TransportOutcome) : Except ReqError JsVal × List LogLine :=
  getRun cl dailyAirTempEndpoint
    (some (dailyAirTempParams start endTime latStr lonStr location unitcode))
    none none outcome

/-- Claim-side log line, following the claim's words only (for comparison
against the source-side `writeLog`): every detail segment — the url, the
path (resolved path when a request object is available, raw endpoint
otherwise), the request body, the response body — appears only when its
detail flag is enabled. -/
def writeLogLineClaim (name endpoint : String) (cfg : AxiosConfig)
    (resp : TransportResponse) (lc : LoggerConfig) : String :=
  let urlSeg : Option String := if lc.url then cfg.url else none
  let pathSeg : Option String :=
    if lc.params then
      match resp.request with
      | some p => p
      | none => some endpoint
    else none
  let dataSeg : Option String := if lc.data then jsonStringify cfg.data else none
  let statusSeg : Option String :=
    some (toString resp.status ++ " " ++ resp.statusText)
  let respSeg : Option String :=
    if lc.response then jsonStringify resp.data else none
  compactJoin [some ("[" ++ name ++ "]"), cfg.method, urlSeg, pathSeg,
    dataSeg, statusSeg, respSeg]

/-- A client configuration under which the logging step cannot fault: either
no sink is configured, or the detail selector is present with the url and
params flags disabled. -/
def logSafe (cl : ApiClient) : Prop :=
  cl.logger = false ∨
    ∃ lc, cl.loggerConfig = some lc ∧ lc.url = false ∧ lc.params = false

/-- Helper: with no sink configured, the logging step is a no-op. -/
theorem writeLog_no_sink (cl : ApiClient) (h : cl.logger = false)
    (endpoint : String) (cfg : AxiosConfig) (resp : TransportResponse)
    (lvl : String) : writeLog cl endpoint cfg resp lvl = .ok [] := by
  simp [writeLog, h]

/-- Helper: under a `logSafe` configuration the logging step never faults,
emitting one line when a sink is configured and none otherwise. -/
theorem writeLog_safe_ok (cl : ApiClient) (hsafe : logSafe cl)
    (endpoint : String) (cfg : AxiosConfig) (resp : TransportResponse)
    (lvl : String) :
    ∃ logs, writeLog cl endpoint cfg resp lvl = .ok logs ∧
      (cl.logger = false → logs = []) ∧ (cl.logger = true → logs.length = 1) := by
  rcases hsafe with h | ⟨lc, hlc, hurl, hparams⟩
  · refine ⟨[], by simp [writeLog, h], fun _ => rfl, fun hc => ?_⟩
    rw [h] at hc
    exact absurd hc (by simp)
  · by_cases hl : cl.logger = true
    · refine ⟨[⟨lvl, compactJoin [some ("[" ++ cl.name ++ "]"), cfg.method,
        none, some endpoint, (if lc.data then jsonStringify cfg.data else none),
        some (toString resp.status ++ " " ++ resp.statusText),
        (if lc.response then jsonStringify resp.data else none)]⟩],
        ?_, fun hc => ?_, fun _ => rfl⟩
      · simp [writeLog, hl, hlc, hurl, hparams]
      · rw [hl] at hc
        exact absurd hc (by simp)
    · have hl2 : cl.logger = false := by simpa using hl
      refine ⟨[], by simp [writeLog, hl2], fun _ => rfl, fun hc => ?_⟩
      rw [hl2] at hc
      exact absurd hc (by simp)

/-- Helper: with `config.params` present, the assembly step never faults. -/
theorem assembleRequest_ok (cl : ApiClient) (endpoint : String)
    (cfg0 : AxiosConfig) (ps : ParamsMap) (h : cfg0.params = some ps) :
    ∃ cfg, assembleRequest cl endpoint cfg0 = .ok cfg := by
  unfold assembleRequest injectIntoConfig
  simp [h]

/-- C1: after credential injection, the reserved keys app_id and app_key of
the outbound parameter mapping each equal the instance config value if
non-empty, else the per-call override if non-empty, else null — regardless
of any value the caller previously placed under those keys. -/
theorem c1_credential_injection (appId appKey : String) (cfg : AxiosConfig)
    (ps : ParamsMap) (hps : cfg.params = some ps) :
    ∃ cfg2, injectIntoConfig appId appKey cfg = .ok cfg2 ∧
      cfg2.params = some (injectParams appId appKey cfg.appId cfg.appKey ps) ∧
      getKey (injectParams appId appKey cfg.appId cfg.appKey ps) "app_id" =
        some (if appId != "" then JsVal.str appId
              else match cfg.appId with
                   | some s => if s != "" then JsVal.str s else JsVal.null
                   | none => JsVal.null) ∧
      getKey (injectParams appId appKey cfg.appId cfg.appKey ps) "app_key" =
        some (if appKey != "" then JsVal.str appKey
              else match cfg.appKey with
                   | some s => if s != "" then JsVal.str s else JsVal.null
                   | none => JsVal.null) := by
  refine ⟨{ cfg with
      params := some (injectParams appId appKey cfg.appId cfg.appKey ps) },
    by simp [injectIntoConfig, hps], rfl, ?_, ?_⟩
  · rw [injectParams, getKey_setKey_other _ _ _ _ (by decide),
      getKey_setKey_same]
    rfl
  · rw [injectParams, getKey_setKey_same]
    rfl

/-- Witness for C1 at a concrete input: a caller-spoofed app_id is
overwritten by the non-empty instance value, and an empty instance app_key
falls back to the non-empty per-call override. -/
theorem c1_credential_injection_witness :
    ∃ cfg2, injectIntoConfig "ID" ""
        { params := some [("app_id", JsVal.str "spoof")],
          appId := some "ov", appKey := some "OK" } = .ok cfg2 ∧
      cfg2.params = some (injectParams "ID" "" (some "ov") (some "OK")
        [("app_id", JsVal.str "spoof")]) ∧
      getKey (injectParams "ID" "" (some "ov") (some "OK")
        [("app_id", JsVal.str "spoof")]) "app_id" = some (JsVal.str "ID") ∧
      getKey (injectParams "ID" "" (some "ov") (some "OK")
        [("app_id", JsVal.str "spoof")]) "app_key" = some (JsVal.str "OK") :=
  c1_credential_injection "ID" ""
    { params := some [("app_id", JsVal.str "spoof")],
      appId := some "ov", appKey := some "OK" }
    [("app_id", JsVal.str "spoof")] rfl

/-- C3: the strict policy returns exactly the response's data payload for a
status in the range of 200 up to but excluding 300, and raises an error
carrying the numeric status as its code and the payload as its meta for any
other status. -/
theorem c3_strict_policy (cl : StrictClient) (cfg : AxiosConfig)
    (ps : ParamsMap) (resp : TransportResponse) (hps : cfg.params = some ps) :
    ((200 ≤ resp.status ∧ resp.status < 300) →
      httpRun cl cfg resp = .payload resp.data) ∧
    (¬(200 ≤ resp.status ∧ resp.status < 300) →
      ∃ msg, httpRun cl cfg resp = .raised ⟨msg, resp.status, resp.data⟩) := by
  constructor
  · intro h
    have hb : isResponseSuccessful resp = true := by
      simp [isResponseSuccessful, h.1, h.2]
    simp [httpRun, injectIntoConfig, hps, hb]
  · intro h
    have hb : isResponseSuccessful resp = false := by
      simp [isResponseSuccessful]
      omega
    refine ⟨toString resp.status ++ " - " ++ jsRenderOptStr cfg.url
      ++ " failed", ?_⟩
    simp [httpRun, injectIntoConfig, hps, hb]

/-- Witness for C3 at the boundary statuses 200, 299, 199 and 300. -/
theorem c3_strict_policy_witness :
    httpRun ⟨"a", "k", "h"⟩ { params := some [] } ⟨200, "OK", .str "p", none⟩
      = .payload (.str "p") ∧
    httpRun ⟨"a", "k", "h"⟩ { params := some [] } ⟨299, "OK", .str "p", none⟩
      = .payload (.str "p") ∧
    (∃ msg, httpRun ⟨"a", "k", "h"⟩ { params := some [] }
      ⟨199, "x", .str "p", none⟩ = .raised ⟨msg, 199, .str "p"⟩) ∧
    (∃ msg, httpRun ⟨"a", "k", "h"⟩ { params := some [] }
      ⟨300, "x", .str "p", none⟩ = .raised ⟨msg, 300, .str "p"⟩) :=
  ⟨(c3_strict_policy ⟨"a", "k", "h"⟩ { params := some [] } []
      ⟨200, "OK", .str "p", none⟩ rfl).1 (by constructor <;> norm_num),
   (c3_strict_policy ⟨"a", "k", "h"⟩ { params := some [] } []
      ⟨299, "OK", .str "p", none⟩ rfl).1 (by constructor <;> norm_num),
   (c3_strict_policy ⟨"a", "k", "h"⟩ { params := some [] } []
      ⟨199, "x", .str "p", none⟩ rfl).2 (by norm_num),
   (c3_strict_policy ⟨"a", "k", "h"⟩ { params := some [] } []
      ⟨300, "x", .str "p", none⟩ rfl).2 (by norm_num)⟩

/-- C6: the URL builder prepends the separator exactly when the endpoint
path lacks one, never duplicating it, as a pure total function on strings. -/
theorem c6_build_api_url (host p : String) :
    (p.data.head? ≠ some '/' → buildApiUrl host p = host ++ "/" ++ p) ∧
    (p.data.head? = some '/' → buildApiUrl host p = host ++ p) := by
  constructor
  · intro h
    have hb : startsWithSlash p = false := by
      simp [startsWithSlash, h]
    simp only [buildApiUrl, hb, Bool.false_eq_true, if_false]
    exact string_append_assoc host "/" p
  · intro h
    have hb : startsWithSlash p = true := by simp [startsWithSlash, h]
    simp [buildApiUrl, hb]

/-- Witness for C6 on a separator-less and a separator-carrying path. -/
theorem c6_build_api_url_witness :
    buildApiUrl "https://h" "v1.2/x" = "https://h" ++ "/" ++ "v1.2/x" ∧
    buildApiUrl "https://h" "/v1.2/x" = "https://h" ++ "/v1.2/x" :=
  ⟨(c6_build_api_url "https://h" "v1.2/x").1 (by decide),
   (c6_build_api_url "https://h" "/v1.2/x").2 (by decide)⟩

/-- C9: a falsy supplied location (the empty string) is not used verbatim;
the combined latitude-comma-longitude string is used instead. -/
theorem c9_falsy_location (start endTime : Int) (latStr lonStr : String)
    (unitcode : Option String) :
    locationValue latStr lonStr (some "") = latStr ++ ", " ++ lonStr ∧
    dailyAirTempParams start endTime latStr lonStr (some "") unitcode =
      [("start", .int start), ("end", .int endTime),
       ("location", .str (latStr ++ ", " ++ lonStr)),
       ("unitcode", jsOfOptStr unitcode)] := by
  have h : locationValue latStr lonStr (some "") = latStr ++ ", " ++ lonStr := by
    simp [locationValue, jsTruthyStr]
  exact ⟨h, by simp [dailyAirTempParams, h]⟩

/-- C10: the credential injection of both variants requires the config's
params property to be present (it faults before dispatch otherwise), and
every config built through the public GET helpers carries a present params
mapping, so the faulting branch is unreachable under the public interface. -/
theorem c10_params_precondition :
    (∀ (appId appKey : String) (cfg : AxiosConfig), cfg.params = none →
      injectIntoConfig appId appKey cfg =
        .error "TypeError: cannot set properties of undefined") ∧
    (∀ (params : Option ParamsMap) (appId appKey : Option String),
      (getCfg params appId appKey).params = some (params.getD [])) ∧
    (∀ (cl : StrictClient) (endpoint : String) (params : Option ParamsMap)
      (appId appKey : Option String),
      (httpGetCfg cl endpoint params appId appKey).params =
        some (params.getD [])) ∧
    (∀ (cl : ApiClient) (endpoint : String) (params : Option ParamsMap)
      (appId appKey : Option String),
      ∃ cfg, assembleRequest cl endpoint (getCfg params appId appKey) = .ok cfg) ∧
    (∀ (cl : StrictClient) (cfg : AxiosConfig) (resp : TransportResponse),
      cfg.params = none →
      httpRun cl cfg resp =
        .fault "TypeError: cannot set properties of undefined") := by
  refine ⟨?_, ?_, ?_, ?_, ?_⟩
  · intro a k cfg h
    simp [injectIntoConfig, h]
  · intro p a k
    rfl
  · intro cl e p a k
    rfl
  · intro cl e p a k
    exact assembleRequest_ok cl e _ (p.getD []) rfl
  · intro cl cfg r h
    simp [httpRun, injectIntoConfig, h]

/-- Witness for C10: a params-less config faults in both variants; a
helper-built config with omitted params carries the empty mapping and
assembles without fault. -/
theorem c10_params_precondition_witness :
    injectIntoConfig "a" "k" { url := some "u" } =
      .error "TypeError: cannot set properties of undefined" ∧
    (getCfg none none none).params = some [] ∧
    (httpGetCfg ⟨"a", "k", "h"⟩ "/x" none none none).params = some [] ∧
    (∃ cfg, assembleRequest
      { appId := "a", appKey := "k", logger := false, loggerConfig := none }
      "/x" (getCfg none none none) = .ok cfg) ∧
    httpRun ⟨"a", "k", "h"⟩ { url := some "u" } ⟨200, "OK", .null, none⟩ =
      .fault "TypeError: cannot set properties of undefined" := by
  have h := c10_params_precondition
  refine ⟨h.1 "a" "k" { url := some "u" } rfl, h.2.1 none none none,
    h.2.2.1 ⟨"a", "k", "h"⟩ "/x" none none none, ?_,
    h.2.2.2.2 ⟨"a", "k", "h"⟩ { url := some "u" } ⟨200, "OK", .null, none⟩ rfl⟩
  exact h.2.2.2.1 { appId := "a", appKey := "k", logger := false, loggerConfig := none } "/x" none none none

/-- Helper: with `config.params` present, the assembled config keeps the
caller's method, carries the built URL, and holds the injected params. -/
theorem assembleRequest_fields (cl : ApiClient) (endpoint : String)
    (cfg0 : AxiosConfig) (ps : ParamsMap) (h : cfg0.params = some ps) :
    ∃ cfg, assembleRequest cl endpoint cfg0 = .ok cfg ∧
      cfg.method = cfg0.method ∧
      cfg.url = some (buildApiUrl cl.host endpoint) ∧
      cfg.params = some (injectParams cl.appId cl.appKey cfg0.appId
        cfg0.appKey ps) := by
  unfold assembleRequest injectIntoConfig
  by_cases ht : cl.timeout != 0
  · simp [h, ht]
  · simp [h, ht]

/-- C2: under the tolerant policy, a transport exception with an attached
404 response yields a null result and no raise; an attached response of any
other status re-raises the original exception unchanged; an exception with
no attached response is re-raised unchanged and never downgraded to null
(stated for configurations whose best-effort logging step cannot fault). -/
theorem c2_tolerant_policy (cl : ApiClient) (endpoint : String)
    (cfg : AxiosConfig) (ps : ParamsMap) (e : TransportErr)
    (hps : cfg.params = some ps) (hsafe : logSafe cl) :
    (∀ r, e.response = some r → r.status = 404 →
      (requestCore cl endpoint cfg (.failure e)).1 = .ok .null) ∧
    (∀ r, e.response = some r → r.status ≠ 404 →
      (requestCore cl endpoint cfg (.failure e)).1 = .error (.transport e)) ∧
    (e.response = none →
      requestCore cl endpoint cfg (.failure e) =
        (.error (.transport e), [])) := by
  obtain ⟨cfga, ha⟩ := assembleRequest_ok cl endpoint cfg ps hps
  refine ⟨?_, ?_, ?_⟩
  · intro r hr h404
    obtain ⟨logs, hlog, _, _⟩ := writeLog_safe_ok cl hsafe endpoint cfga r "error"
    simp [requestCore, ha, hr, hlog, h404]
  · intro r hr h404
    obtain ⟨logs, hlog, _, _⟩ := writeLog_safe_ok cl hsafe endpoint cfga r "error"
    simp [requestCore, ha, hr, hlog, h404]
  · intro hr
    simp [requestCore, ha, hr]

/-- Witness for C2 at concrete 404, 500 and no-response failures. -/
theorem c2_tolerant_policy_witness :
    (requestCore { appId := "a", appKey := "k", logger := false, loggerConfig := none }
      "/x" (getCfg (some []) none none)
      (.failure ⟨some ⟨404, "Not Found", .str "x", none⟩⟩)).1 = .ok .null ∧
    (requestCore { appId := "a", appKey := "k", logger := false, loggerConfig := none }
      "/x" (getCfg (some []) none none)
      (.failure ⟨some ⟨500, "Server Error", .str "x", none⟩⟩)).1 =
      .error (.transport ⟨some ⟨500, "Server Error", .str "x", none⟩⟩) ∧
    requestCore { appId := "a", appKey := "k", logger := false, loggerConfig := none }
      "/x" (getCfg (some []) none none) (.failure ⟨none⟩) =
      (.error (.transport ⟨none⟩), []) := by
  refine ⟨?_, ?_, ?_⟩
  · exact (c2_tolerant_policy _ "/x" _ [] _ rfl (Or.inl rfl)).1
      ⟨404, "Not Found", .str "x", none⟩ rfl rfl
  · exact (c2_tolerant_policy _ "/x" _ [] _ rfl (Or.inl rfl)).2.1
      ⟨500, "Server Error", .str "x", none⟩ rfl (by decide)
  · exact (c2_tolerant_policy _ "/x" _ [] _ rfl (Or.inl rfl)).2.2 rfl

/-- C4 counterexample: with a sink configured (and a fault-free detail
selector), a transport failure carrying no attached response emits zero log
lines, not the one emission per call the claim requires. -/
theorem c4_log_emission_counterexample :
    ({ appId := "a", appKey := "k", logger := true,
       loggerConfig := some ⟨false, false, false, false⟩ : ApiClient }).logger
      = true ∧
    requestCore { appId := "a", appKey := "k", logger := true, loggerConfig := some ⟨false, false, false, false⟩ }
      "/x" (getCfg (some []) none none) (.failure ⟨none⟩) =
      (.error (.transport ⟨none⟩), []) :=
  ⟨rfl, by rfl⟩

/-- C4 (amended): with a sink configured, exactly one log emission occurs
for a call that succeeds or fails with an attached response, but a
transport failure with no attached response emits nothing; with no sink,
zero emissions occur (stated for configurations whose logging step cannot
fault). -/
theorem c4_log_emission_amended (cl : ApiClient) (endpoint : String)
    (cfg : AxiosConfig) (ps : ParamsMap) (outcome : TransportOutcome)
    (hps : cfg.params = some ps) (hsafe : logSafe cl) :
    (cl.logger = false → (requestCore cl endpoint cfg outcome).2 = []) ∧
    (cl.logger = true → ∀ resp, outcome = .success resp →
      (requestCore cl endpoint cfg outcome).2.length = 1) ∧
    (cl.logger = true → ∀ e resp, outcome = .failure e →
      e.response = some resp →
      (requestCore cl endpoint cfg outcome).2.length = 1) ∧
    (∀ e, outcome = .failure e → e.response = none →
      (requestCore cl endpoint cfg outcome).2 = []) := by
  obtain ⟨cfga, ha⟩ := assembleRequest_ok cl endpoint cfg ps hps
  refine ⟨?_, ?_, ?_, ?_⟩
  · intro hl
    cases outcome with
    | success resp =>
        obtain ⟨logs, hlog, hempty, _⟩ :=
          writeLog_safe_ok cl hsafe endpoint cfga resp cl.logLevel
        simp [requestCore, ha, hlog, hempty hl]
    | failure e =>
        cases he : e.response with
        | none => simp [requestCore, ha, he]
        | some resp =>
            obtain ⟨logs, hlog, hempty, _⟩ :=
              writeLog_safe_ok cl hsafe endpoint cfga resp "error"
            simp [requestCore, ha, he, hlog, apply_ite Prod.snd, hempty hl]
  · intro hl resp hout
    subst hout
    obtain ⟨logs, hlog, _, hone⟩ :=
      writeLog_safe_ok cl hsafe endpoint cfga resp cl.logLevel
    simp [requestCore, ha, hlog, hone hl]
  · intro hl e resp hout hresp
    subst hout
    obtain ⟨logs, hlog, _, hone⟩ :=
      writeLog_safe_ok cl hsafe endpoint cfga resp "error"
    simp [requestCore, ha, hresp, hlog, apply_ite Prod.snd, hone hl]
  · intro e hout he
    subst hout
    simp [requestCore, ha, he]

/-- Witness for C4 (amended): a successful call with a sink emits one line. -/
theorem c4_log_emission_amended_witness :
    (requestCore { appId := "a", appKey := "k", logger := true, loggerConfig := some ⟨false, false, false, true⟩ }
      "/x" (getCfg (some []) none none)
      (.success ⟨200, "OK", .str "d", none⟩)).2.length = 1 :=
  (c4_log_emission_amended _ "/x" _ [] _ rfl
      (Or.inr ⟨⟨false, false, false, true⟩, rfl, rfl, rfl⟩)).2.1
    rfl ⟨200, "OK", .str "d", none⟩ rfl

/-- C5: code bug — the logging step can itself raise and replace the real
result: with a sink configured but the logger-detail configuration absent,
a successful 200 response is turned into a raised TypeError; enabling the
url detail flag likewise faults (the scheme builder method is absent from
the class), and the params detail flag faults when the response carries no
request object. -/
theorem c5_logging_fault_bug :
    requestCore { appId := "a", appKey := "k", logger := true, loggerConfig := none }
      "/x" (getCfg (some []) none none)
      (.success ⟨200, "OK", .str "d", some (some "/x")⟩) =
      (.error (.fault "TypeError: cannot read properties of undefined reading url"), []) ∧
    writeLog { appId := "a", appKey := "k", logger := true, loggerConfig := some ⟨true, false, false, false⟩ }
      "/x" { method := some "GET" } ⟨200, "OK", .str "d", some (some "/x")⟩
      "verbose" = .error "TypeError: this.buildScheme is not a function" ∧
    writeLog { appId := "a", appKey := "k", logger := true, loggerConfig := some ⟨false, true, false, false⟩ }
      "/x" { method := some "GET" } ⟨200, "OK", .str "d", none⟩
      "verbose" =
      .error "TypeError: cannot read properties of undefined reading path" :=
  ⟨by rfl, by rfl, by rfl⟩

/-- C7 counterexample: with only the response detail flag enabled, the
emitted line still contains the raw endpoint path — the source pushes the
raw endpoint whenever the params flag is disabled, so the path segment is
not gated on the params flag as the claim states, and the source-side line
differs from the claim-side line. -/
theorem c7_log_fields_counterexample :
    writeLog { appId := "a", appKey := "k", logger := true, loggerConfig := some ⟨false, false, false, true⟩ }
      "/v1.2/historical/daily/air_temp" { method := some "GET" }
      ⟨200, "OK", .str "b", some (some "/resolved")⟩ "verbose" =
      .ok [⟨"verbose",
        "[clearag-api] GET /v1.2/historical/daily/air_temp 200 OK \"b\""⟩] ∧
    writeLogLineClaim "clearag-api" "/v1.2/historical/daily/air_temp"
      { method := some "GET" } ⟨200, "OK", .str "b", some (some "/resolved")⟩
      ⟨false, false, false, true⟩ = "[clearag-api] GET 200 OK \"b\"" ∧
    ("[clearag-api] GET /v1.2/historical/daily/air_temp 200 OK \"b\"" : String)
      ≠ "[clearag-api] GET 200 OK \"b\"" :=
  ⟨by rfl, by rfl, by decide⟩

/-- C7 (amended): when the url flag is disabled (and, if the params flag is
enabled, a request object is available), exactly one line is emitted whose
segments in order are: the bracketed client name; the method; the resolved
request path when the params flag is enabled and the raw endpoint path
otherwise (the path segment is never flag-omitted); the serialized request
body only when the data flag is enabled and a body exists; the status and
status text; the serialized response body only when the response flag is
enabled — falsy segments dropped, the remainder joined by single spaces.
Enabling the url flag instead faults, since the scheme builder method is
absent from the class. -/
theorem c7_log_fields_amended (cl : ApiClient) (lc : LoggerConfig)
    (endpoint : String) (cfg : AxiosConfig) (resp : TransportResponse)
    (lvl : String) (hl : cl.logger = true) (hlc : cl.loggerConfig = some lc) :
    (lc.url = false → (lc.params = true → resp.request.isSome = true) →
      writeLog cl endpoint cfg resp lvl = .ok [⟨lvl, compactJoin
        [some ("[" ++ cl.name ++ "]"), cfg.method, none,
         (if lc.params then resp.request.getD none else some endpoint),
         (if lc.data then jsonStringify cfg.data else none),
         some (toString resp.status ++ " " ++ resp.statusText),
         (if lc.response then jsonStringify resp.data else none)]⟩]) ∧
    (lc.url = true → writeLog cl endpoint cfg resp lvl =
      .error "TypeError: this.buildScheme is not a function") := by
  constructor
  · intro hurl hreq
    have hpr : (lc.params && resp.request.isNone) = false := by
      cases hp : lc.params
      · simp
      · obtain ⟨a, ha⟩ := Option.isSome_iff_exists.mp (hreq hp)
        simp [ha]
    simp [writeLog, hl, hlc, hurl, hpr]
  · intro hurl
    simp [writeLog, hl, hlc, hurl]

/-- Witness for C7 (amended): with only the params flag enabled the line
carries the resolved request path. -/
theorem c7_log_fields_amended_witness :
    writeLog { appId := "a", appKey := "k", logger := true, loggerConfig := some ⟨false, true, false, false⟩ }
      "/x" { method := some "GET" } ⟨200, "OK", .str "b", some (some "/resolved")⟩
      "verbose" = .ok [⟨"verbose", "[clearag-api] GET /resolved 200 OK"⟩] :=
  (c7_log_fields_amended _ ⟨false, true, false, false⟩ "/x"
      { method := some "GET" } ⟨200, "OK", .str "b", some (some "/resolved")⟩
      "verbose" rfl rfl).1 rfl (fun _ => rfl)

/-- C8: the daily historical air temperature endpoint builds the parameter
bag with start, end, the combined latitude-comma-longitude location string
(the supplied location being used verbatim whenever it is a non-empty
string) and the unitcode, and the pipeline dispatches method GET to the
host followed by the fixed endpoint path. -/
theorem c8_daily_air_temp (cl : ApiClient) :
    dailyAirTempParams 1577836800 1577923200 "40.71" "-74.01" none none =
      [("start", .int 1577836800), ("end", .int 1577923200),
       ("location", .str "40.71, -74.01"), ("unitcode", .undefined)] ∧
    (∃ cfg, assembleRequest cl dailyAirTempEndpoint
        (getCfg (some (dailyAirTempParams 1577836800 1577923200 "40.71"
          "-74.01" none none)) none none) = .ok cfg ∧
      cfg.method = some "GET" ∧
      cfg.url = some (cl.host ++ "/v1.2/historical/daily/air_temp")) ∧
    (∀ latStr lonStr s, s ≠ "" → locationValue latStr lonStr (some s) = s) ∧
    (∀ latStr lonStr, locationValue latStr lonStr none =
      latStr ++ ", " ++ lonStr) := by
  have hurl : buildApiUrl cl.host dailyAirTempEndpoint =
      cl.host ++ "/v1.2/historical/daily/air_temp" := by
    have hs : startsWithSlash dailyAirTempEndpoint = true := rfl
    simp [buildApiUrl, hs]
    rfl
  refine ⟨rfl, ?_, ?_, fun latStr lonStr => rfl⟩
  · obtain ⟨cfg, hok, hm, hu, _⟩ := assembleRequest_fields cl
      dailyAirTempEndpoint
      (getCfg (some (dailyAirTempParams 1577836800 1577923200 "40.71"
        "-74.01" none none)) none none)
      (dailyAirTempParams 1577836800 1577923200 "40.71" "-74.01" none none)
      rfl
    exact ⟨cfg, hok, by rw [hm]; rfl, by rw [hu, hurl]⟩
  · intro latStr lonStr s hs
    simp [locationValue, jsTruthyStr, hs]

/-- Witness for C8: the scenario bag, and a non-empty location string used
verbatim. -/
theorem c8_daily_air_temp_witness :
    dailyAirTempParams 1577836800 1577923200 "40.71" "-74.01" none none =
      [("start", .int 1577836800), ("end", .int 1577923200),
       ("location", .str "40.71, -74.01"), ("unitcode", .undefined)] ∧
    locationValue "40.71" "-74.01" (some "(1,2),(3,4)") = "(1,2),(3,4)" := by
  have h := c8_daily_air_temp
    { appId := "a", appKey := "k", logger := false, loggerConfig := none }
  exact ⟨h.1, h.2.2.1 "40.71" "-74.01" "(1,2),(3,4)" (by decide)⟩
